import Mathlib

/-!
# Shallow embedding of `superannuation.py` (Australian retirement planner)

This file embeds the computational core of the repository — the constant
tables, the minimum-drawdown lookup, the tax calculator, the Age Pension
means tests, the year-by-year retirement projection loop, and the
years-to-target calculator — as executable Lean definitions over `ℚ`, and
proves the specified properties about them.

Modelling conventions:
* Python floats are modelled as exact rationals (`ℚ`); every arithmetic
  operation in the source is one of `+ - * / min max`, all exact on `ℚ`.
* The `round(x, 2)` calls in the source apply only to the fields of the
  emitted result dictionaries and are display formatting (the spec calls
  these "display-oriented fields", and the loop state and the
  early-termination test use the unrounded locals); the embedded
  `YearResult` carries the unrounded values.
* Python's `float('inf')` sentinel in `years_to_reach_target_super` is
  modelled as `none : Option ℕ`.
* The bounded loops (`for age in range(...)`, `while ... and years < 100`)
  are modelled by structural recursion on an explicit fuel argument that
  mirrors the remaining iteration count.
-/

/-- `relationship_status`: the `'single'` / `'couple'` selector. -/
inductive RelStatus where
  | single
  | couple
deriving DecidableEq

/-- One entry of the per-status `CONSTANTS` table (July 1, 2025, homeowner). -/
structure RateConstants where
  MAX_ANNUAL_AGE_PENSION : ℚ
  DEEM_THRESH1 : ℚ
  DEEM_RATE1 : ℚ
  DEEM_RATE2 : ℚ
  ASSET_FULL_PENSION : ℚ
  ASSET_PART_PENSION_CUTOFF : ℚ
  INCOME_FULL_PENSION : ℚ
  INCOME_PART_PENSION_CUTOFF : ℚ
  AP_INCOME_REDUCTION_RATE : ℚ
  SAPTO_MAX : ℚ
  SAPTO_EFFECTIVE_TAX_FREE_THRESHOLD : ℚ
  SAPTO_PHASE_OUT_RATE : ℚ
  MEDICARE_LEVY_THRESHOLD_SENIOR : ℚ
  MEDICARE_LEVY_RATE : ℚ
deriving DecidableEq

/-- The `CONSTANTS` dictionary of `project_retirement_income`. -/
def CONSTANTS : RelStatus → RateConstants
  | .single =>
    { MAX_ANNUAL_AGE_PENSION := 29874
      DEEM_THRESH1 := 64200
      DEEM_RATE1 := 0.0025
      DEEM_RATE2 := 0.0225
      ASSET_FULL_PENSION := 321500
      ASSET_PART_PENSION_CUTOFF := 704500
      INCOME_FULL_PENSION := 5668
      INCOME_PART_PENSION_CUTOFF := 65416
      AP_INCOME_REDUCTION_RATE := 0.5
      SAPTO_MAX := 2230
      SAPTO_EFFECTIVE_TAX_FREE_THRESHOLD := 32279
      SAPTO_PHASE_OUT_RATE := 0.125
      MEDICARE_LEVY_THRESHOLD_SENIOR := 43020
      MEDICARE_LEVY_RATE := 0.02 }
  | .couple =>
    { MAX_ANNUAL_AGE_PENSION := 45037.20
      DEEM_THRESH1 := 106200
      DEEM_RATE1 := 0.0025
      DEEM_RATE2 := 0.0225
      ASSET_FULL_PENSION := 481500
      ASSET_PART_PENSION_CUTOFF := 1059000
      INCOME_FULL_PENSION := 9880
      INCOME_PART_PENSION_CUTOFF := 99954.40
      AP_INCOME_REDUCTION_RATE := 0.5
      SAPTO_MAX := 1602
      SAPTO_EFFECTIVE_TAX_FREE_THRESHOLD := 30994
      SAPTO_PHASE_OUT_RATE := 0.125
      MEDICARE_LEVY_THRESHOLD_SENIOR := 59886
      MEDICARE_LEVY_RATE := 0.02 }

def AGE_PENSION_ELIGIBILITY_AGE : ℕ := 67

/-- `MIN_DRAWDOWN_RATES`: age-band → minimum drawdown rate table. -/
def MIN_DRAWDOWN_RATES : List ((ℕ × ℕ) × ℚ) :=
  [((0, 64), 0.04),
   ((65, 74), 0.05),
   ((75, 79), 0.06),
   ((80, 84), 0.07),
   ((85, 89), 0.09),
   ((90, 94), 0.11),
   ((95, 200), 0.14)]

/-- `get_min_drawdown_rate(age)`: scan the bands in order, return the rate of
the first band whose closed interval contains `age`, else the `0.0` fallback. -/
def get_min_drawdown_rate (age : ℕ) : ℚ :=
  match MIN_DRAWDOWN_RATES.find? (fun b => decide (b.1.1 ≤ age ∧ age ≤ b.1.2)) with
  | some b => b.2
  | none => 0.0

/-- The 2025-26 progressive bracket computation (`gross_tax` in `calculate_tax`). -/
def gross_tax (taxable_income : ℚ) : ℚ :=
  if taxable_income ≤ 18200 then 0
  else if taxable_income ≤ 45000 then (taxable_income - 18200) * 0.16
  else if taxable_income ≤ 135000 then 4288 + (taxable_income - 45000) * 0.30
  else if taxable_income ≤ 190000 then 31288 + (taxable_income - 135000) * 0.37
  else 51638 + (taxable_income - 190000) * 0.45

/-- The `sapto_offset` computation of `calculate_tax` (0 below eligibility
age; full cancellation at or below the effective threshold; otherwise the
phased-out amount floored at 0 and capped at gross tax). -/
def sapto_offset (c : RateConstants) (taxable_income : ℚ) (age : ℕ) : ℚ :=
  if AGE_PENSION_ELIGIBILITY_AGE ≤ age then
    if taxable_income ≤ c.SAPTO_EFFECTIVE_TAX_FREE_THRESHOLD then gross_tax taxable_income
    else
      min (max 0 (c.SAPTO_MAX -
            (taxable_income - c.SAPTO_EFFECTIVE_TAX_FREE_THRESHOLD) * c.SAPTO_PHASE_OUT_RATE))
        (gross_tax taxable_income)
  else 0

/-- The `medicare_levy` computation of `calculate_tax`: for a non-split call
the per-status senior threshold is used as-is; for a household-split call the
selected threshold is divided by 2 when the status is `'couple'` (and by 1
when `'single'`). -/
def medicare_levy (status : RelStatus) (taxable_income : ℚ) (is_couple_tax : Bool) : ℚ :=
  if is_couple_tax then
    if (CONSTANTS status).MEDICARE_LEVY_THRESHOLD_SENIOR /
        (if status = RelStatus.single then 1 else 2) < taxable_income then
      taxable_income * (CONSTANTS status).MEDICARE_LEVY_RATE
    else 0
  else
    if (CONSTANTS status).MEDICARE_LEVY_THRESHOLD_SENIOR < taxable_income then
      taxable_income * (CONSTANTS status).MEDICARE_LEVY_RATE
    else 0

/-- `calculate_tax(taxable_income, age, is_couple_tax)`: gross bracket tax,
minus SAPTO (floored at 0), plus Medicare levy. -/
def calculate_tax (status : RelStatus) (taxable_income : ℚ) (age : ℕ)
    (is_couple_tax : Bool) : ℚ :=
  max 0 (gross_tax taxable_income - sapto_offset (CONSTANTS status) taxable_income age) +
    medicare_levy status taxable_income is_couple_tax

/-- Step 1 of the pension block: deemed income on the current balance
(deeming applies only to a strictly positive balance). -/
def deemed_income (c : RateConstants) (current_super : ℚ) : ℚ :=
  if 0 < current_super then
    min current_super c.DEEM_THRESH1 * c.DEEM_RATE1 +
      max 0 (current_super - c.DEEM_THRESH1) * c.DEEM_RATE2
  else 0

/-- Step 2 of the pension block: the income-test entitlement `ap_by_income`. -/
def ap_by_income (c : RateConstants) (d : ℚ) : ℚ :=
  if d ≤ c.INCOME_FULL_PENSION then c.MAX_ANNUAL_AGE_PENSION
  else if d < c.INCOME_PART_PENSION_CUTOFF then
    max 0 (c.MAX_ANNUAL_AGE_PENSION - (d - c.INCOME_FULL_PENSION) * c.AP_INCOME_REDUCTION_RATE)
  else 0

/-- Step 3 of the pension block: the assets-test entitlement `ap_by_asset`. -/
def ap_by_asset (c : RateConstants) (current_super : ℚ) : ℚ :=
  if current_super ≤ c.ASSET_FULL_PENSION then c.MAX_ANNUAL_AGE_PENSION
  else if current_super < c.ASSET_PART_PENSION_CUTOFF then
    max 0 (c.MAX_ANNUAL_AGE_PENSION - (current_super - c.ASSET_FULL_PENSION) * 0.0078)
  else 0

/-- The full `annual_age_pension` computation: 0 below the eligibility age,
otherwise the lower of the two means tests, floored at 0. -/
def annual_age_pension (status : RelStatus) (age : ℕ) (current_super : ℚ) : ℚ :=
  if AGE_PENSION_ELIGIBILITY_AGE ≤ age then
    max 0 (min
      (ap_by_income (CONSTANTS status) (deemed_income (CONSTANTS status) current_super))
      (ap_by_asset (CONSTANTS status) current_super))
  else 0

/-- One emitted row of `project_retirement_income` (unrounded values; the
source applies `round(·, 2)` for display only). -/
structure YearResult where
  age : ℕ
  startSuper : ℚ
  minDrawdownRate : ℚ
  minDrawdownAmt : ℚ
  superWithdrawal : ℚ
  agePension : ℚ
  totalPreTax : ℚ
  taxableSlice : ℚ
  taxPayment : ℚ
  totalAfterTax : ℚ
  totalIncomeAfterTax : ℚ
  investmentReturn : ℚ
  endSuper : ℚ
deriving DecidableEq

/-- The body of one iteration of the projection loop: everything computed for
one age from the carried balance, before the roll-forward and the
early-termination test. -/
def yearResult (status : RelStatus) (super_return_rate target_after_tax_income : ℚ)
    (age : ℕ) (current_super : ℚ) : YearResult :=
  let pension := annual_age_pension status age current_super
  let slice := pension / (if status = RelStatus.couple then 2 else 1)
  let tax_pp := calculate_tax status slice age (decide (status = RelStatus.couple))
  let total_tax := tax_pp * (if status = RelStatus.couple then 2 else 1)
  let after_tax_pension := pension - total_tax
  let required := target_after_tax_income - after_tax_pension
  let mdr := get_min_drawdown_rate age
  let mda := current_super * mdr
  let w1 := max mda required
  let w2 := min w1 current_super
  let w3 := if target_after_tax_income ≤ after_tax_pension then min mda current_super else w2
  let w := max 0 w3
  let pre := w + pension
  let after := pre - total_tax
  let rem := current_super - w
  let ret := rem * super_return_rate
  { age := age
    startSuper := current_super
    minDrawdownRate := mdr
    minDrawdownAmt := mda
    superWithdrawal := w
    agePension := pension
    totalPreTax := pre
    taxableSlice := slice
    taxPayment := total_tax
    totalAfterTax := after
    totalIncomeAfterTax := after
    investmentReturn := ret
    endSuper := rem + ret }

/-- The `for age in range(start_age, end_age + 1)` loop of
`project_retirement_income`, with the remaining iteration count as fuel.
After emitting a row: if the new balance is ≤ 0 and the age is below
`end_age`, the carried balance is clamped to 0, and the loop breaks when the
row's pension is 0 and its after-tax income missed the target. -/
def projectLoop (status : RelStatus) (super_return_rate target : ℚ) (end_age : ℕ) :
    ℕ → ℕ → ℚ → List YearResult
  | 0, _, _ => []
  | fuel + 1, age, current_super =>
    let r := yearResult status super_return_rate target age current_super
    if r.endSuper ≤ 0 ∧ age < end_age then
      if r.agePension = 0 ∧ r.totalAfterTax < target then [r]
      else r :: projectLoop status super_return_rate target end_age fuel (age + 1) 0
    else r :: projectLoop status super_return_rate target end_age fuel (age + 1) r.endSuper

/-- `project_retirement_income`: run the loop over ages
`start_age, …, end_age` starting from `start_super`. -/
def project_retirement_income (start_super : ℚ) (start_age end_age : ℕ)
    (super_return_rate target_after_tax_income : ℚ) (status : RelStatus) :
    List YearResult :=
  projectLoop status super_return_rate target_after_tax_income end_age
    (end_age + 1 - start_age) start_age start_super

/-- The `while balance < target and years < 100` loop of
`years_to_reach_target_super`; the fuel equals `100 - years`. -/
def yrtLoop (annual_contribution annual_return_rate target_balance : ℚ) :
    ℕ → ℕ → ℕ → ℚ → ℕ × ℕ × ℚ
  | 0, years, age, balance => (years, age, balance)
  | fuel + 1, years, age, balance =>
    if balance < target_balance then
      yrtLoop annual_contribution annual_return_rate target_balance fuel
        (years + 1) (age + 1) ((balance + annual_contribution) * (1 + annual_return_rate))
    else (years, age, balance)

/-- `years_to_reach_target_super(start_age, current_balance, target_balance,
annual_contribution, annual_return_rate)`; the `float('inf')` sentinel values
are modelled as `none`. -/
def years_to_reach_target_super (start_age : ℕ)
    (current_balance target_balance annual_contribution annual_return_rate : ℚ) :
    Option ℕ × Option ℕ × ℚ :=
  if target_balance ≤ current_balance then (some 0, some start_age, current_balance)
  else if annual_contribution ≤ 0 ∧ annual_return_rate ≤ 0 then (none, none, current_balance)
  else
    let out := yrtLoop annual_contribution annual_return_rate target_balance 100 0
      start_age current_balance
    if out.1 = 100 ∧ out.2.2 < target_balance then (none, none, out.2.2)
    else (some out.1, some out.2.1, out.2.2)

/-! ## Basic facts about one projection year -/

theorem yearResult_age (status : RelStatus) (rate target : ℚ) (age : ℕ) (cs : ℚ) :
    (yearResult status rate target age cs).age = age := rfl

theorem yearResult_startSuper (status : RelStatus) (rate target : ℚ) (age : ℕ) (cs : ℚ) :
    (yearResult status rate target age cs).startSuper = cs := rfl

theorem yearResult_endSuper_eq (status : RelStatus) (rate target : ℚ) (age : ℕ) (cs : ℚ) :
    (yearResult status rate target age cs).endSuper =
      (cs - (yearResult status rate target age cs).superWithdrawal) * (1 + rate) := by
  simp only [yearResult]
  ring

theorem yearResult_withdrawal_nonneg (status : RelStatus) (rate target : ℚ) (age : ℕ)
    (cs : ℚ) : 0 ≤ (yearResult status rate target age cs).superWithdrawal := by
  simp only [yearResult]
  exact le_max_left 0 _

theorem yearResult_withdrawal_le (status : RelStatus) (rate target : ℚ) (age : ℕ) (cs : ℚ)
    (h : 0 ≤ cs) : (yearResult status rate target age cs).superWithdrawal ≤ cs := by
  simp only [yearResult]
  exact max_le h
    (le_trans (ite_le_sup _ _ _) (sup_le (min_le_right _ _) (min_le_right _ _)))

theorem yearResult_endSuper_nonneg (status : RelStatus) (rate target : ℚ) (age : ℕ) (cs : ℚ)
    (h : 0 ≤ cs) (hr : 0 ≤ rate) : 0 ≤ (yearResult status rate target age cs).endSuper := by
  rw [yearResult_endSuper_eq]
  have h1 := yearResult_withdrawal_le status rate target age cs h
  exact mul_nonneg (by linarith) (by linarith)

/-! ## C8: the minimum-drawdown band lookup -/

/-- Closed-form if-cascade for `get_min_drawdown_rate` (first matching band
of the ordered scan). -/
theorem get_min_drawdown_rate_eq (age : ℕ) :
    get_min_drawdown_rate age =
      if age ≤ 64 then 0.04
      else if age ≤ 74 then 0.05
      else if age ≤ 79 then 0.06
      else if age ≤ 84 then 0.07
      else if age ≤ 89 then 0.09
      else if age ≤ 94 then 0.11
      else if age ≤ 200 then 0.14
      else 0 := by
  by_cases h1 : age ≤ 64
  · simp [get_min_drawdown_rate, MIN_DRAWDOWN_RATES, List.find?, h1]
  by_cases h2 : age ≤ 74
  · have g1 : 65 ≤ age := by omega
    simp [get_min_drawdown_rate, MIN_DRAWDOWN_RATES, List.find?, h1, h2, g1]
  by_cases h3 : age ≤ 79
  · have g2 : 75 ≤ age := by omega
    simp [get_min_drawdown_rate, MIN_DRAWDOWN_RATES, List.find?, h1, h2, h3, g2]
  by_cases h4 : age ≤ 84
  · have g3 : 80 ≤ age := by omega
    simp [get_min_drawdown_rate, MIN_DRAWDOWN_RATES, List.find?, h1, h2, h3, h4, g3]
  by_cases h5 : age ≤ 89
  · have g4 : 85 ≤ age := by omega
    simp [get_min_drawdown_rate, MIN_DRAWDOWN_RATES, List.find?, h1, h2, h3, h4, h5, g4]
  by_cases h6 : age ≤ 94
  · have g5 : 90 ≤ age := by omega
    simp [get_min_drawdown_rate, MIN_DRAWDOWN_RATES, List.find?, h1, h2, h3, h4, h5, h6, g5]
  by_cases h7 : age ≤ 200
  · have g6 : 95 ≤ age := by omega
    simp [get_min_drawdown_rate, MIN_DRAWDOWN_RATES, List.find?, h1, h2, h3, h4, h5, h6, h7, g6]
  · norm_num [get_min_drawdown_rate, MIN_DRAWDOWN_RATES, List.find?, h1, h2, h3, h4, h5, h6, h7]

/-- C8 (counterexample): the drawdown bands do not partition `[0, ∞)` — at
age 201 no band's closed interval contains the age, and the `0.0` fallback
branch of `get_min_drawdown_rate` is reached. -/
theorem C8_drawdown_counterexample :
    (∀ b ∈ MIN_DRAWDOWN_RATES, ¬(b.1.1 ≤ 201 ∧ 201 ≤ b.1.2)) ∧
    get_min_drawdown_rate 201 = 0 := by
  constructor
  · decide
  · norm_num [get_min_drawdown_rate, MIN_DRAWDOWN_RATES, List.find?]

/-- C8 (amended): for every integer age ≤ 200 there is exactly one drawdown
band whose closed interval contains the age (the bands partition `[0, 200]`
with no gaps or overlaps), and `get_min_drawdown_rate` returns that band's
rate, so the `0.0` fallback branch is not reached for such ages (it is
reached for ages above 200). -/
theorem C8_drawdown_band_lookup (age : ℕ) (h : age ≤ 200) :
    MIN_DRAWDOWN_RATES.countP (fun b => decide (b.1.1 ≤ age ∧ age ≤ b.1.2)) = 1 ∧
    ∃ b ∈ MIN_DRAWDOWN_RATES, (b.1.1 ≤ age ∧ age ≤ b.1.2) ∧
      get_min_drawdown_rate age = b.2 := by
  constructor
  · simp only [MIN_DRAWDOWN_RATES, List.countP_cons, List.countP_nil, decide_eq_true_eq]
    split_ifs <;> omega
  · rw [get_min_drawdown_rate_eq]
    by_cases h1 : age ≤ 64
    · exact ⟨((0, 64), 0.04), by simp [MIN_DRAWDOWN_RATES], ⟨Nat.zero_le _, h1⟩, by simp [h1]⟩
    by_cases h2 : age ≤ 74
    · exact ⟨((65, 74), 0.05), by simp [MIN_DRAWDOWN_RATES], ⟨by show 65 ≤ age; omega, h2⟩, by simp [h1, h2]⟩
    by_cases h3 : age ≤ 79
    · exact ⟨((75, 79), 0.06), by simp [MIN_DRAWDOWN_RATES], ⟨by show 75 ≤ age; omega, h3⟩,
        by simp [h1, h2, h3]⟩
    by_cases h4 : age ≤ 84
    · exact ⟨((80, 84), 0.07), by simp [MIN_DRAWDOWN_RATES], ⟨by show 80 ≤ age; omega, h4⟩,
        by simp [h1, h2, h3, h4]⟩
    by_cases h5 : age ≤ 89
    · exact ⟨((85, 89), 0.09), by simp [MIN_DRAWDOWN_RATES], ⟨by show 85 ≤ age; omega, h5⟩,
        by simp [h1, h2, h3, h4, h5]⟩
    by_cases h6 : age ≤ 94
    · exact ⟨((90, 94), 0.11), by simp [MIN_DRAWDOWN_RATES], ⟨by show 90 ≤ age; omega, h6⟩,
        by simp [h1, h2, h3, h4, h5, h6]⟩
    · exact ⟨((95, 200), 0.14), by simp [MIN_DRAWDOWN_RATES], ⟨by show 95 ≤ age; omega, h⟩,
        by simp [h1, h2, h3, h4, h5, h6, h]⟩

theorem C8_drawdown_band_lookup_witness :
    70 ≤ 200 ∧
    (MIN_DRAWDOWN_RATES.countP (fun b => decide (b.1.1 ≤ 70 ∧ 70 ≤ b.1.2)) = 1 ∧
     ∃ b ∈ MIN_DRAWDOWN_RATES, (b.1.1 ≤ 70 ∧ 70 ≤ b.1.2) ∧
       get_min_drawdown_rate 70 = b.2) :=
  ⟨by omega, C8_drawdown_band_lookup 70 (by omega)⟩



/-! ## C2: the assets-test taper -/

/-- C2 (counterexample): at balance 704500 — strictly above the single
`ASSET_FULL_PENSION` limit — the assets-test entitlement computed by the
pension step is 0, while the claimed formula
`max 0 (maxAnnualPension − 0.0078 × (balance − limit))` is 26886.6; the
claimed equality therefore fails for balances at or above the part-pension
cutoff. -/
theorem C2_assets_taper_counterexample :
    (CONSTANTS RelStatus.single).ASSET_FULL_PENSION < 704500 ∧
    ¬(ap_by_asset (CONSTANTS RelStatus.single) 704500 =
        max 0 ((CONSTANTS RelStatus.single).MAX_ANNUAL_AGE_PENSION -
          0.0078 * (704500 - (CONSTANTS RelStatus.single).ASSET_FULL_PENSION))) ∧
    ap_by_asset (CONSTANTS RelStatus.single) 704500 = 0 ∧
    (CONSTANTS RelStatus.single).MAX_ANNUAL_AGE_PENSION -
      0.0078 * (704500 - (CONSTANTS RelStatus.single).ASSET_FULL_PENSION) = 26886.6 := by
  have hval : (CONSTANTS RelStatus.single).MAX_ANNUAL_AGE_PENSION -
      0.0078 * (704500 - (CONSTANTS RelStatus.single).ASSET_FULL_PENSION) = 26886.6 := by
    norm_num [CONSTANTS]
  have hap : ap_by_asset (CONSTANTS RelStatus.single) 704500 = 0 := by
    norm_num [ap_by_asset, CONSTANTS]
  refine ⟨by norm_num [CONSTANTS], ?_, hap, hval⟩
  rw [hval, hap, max_eq_right (by norm_num : (0:ℚ) ≤ 26886.6)]
  norm_num

/-- C2 (amended): for a balance strictly between `ASSET_FULL_PENSION` and
`ASSET_PART_PENSION_CUTOFF` the assets-test entitlement equals
`max 0 (maxAnnualPension − 0.0078 × (balance − limit))`; at or above the
cutoff it is 0 (the explicit zero branch); and for a single at
balance = limit + 10000 it equals 29874 − 78 = 29796. -/
theorem C2_assets_taper (status : RelStatus) (cs : ℚ)
    (h1 : (CONSTANTS status).ASSET_FULL_PENSION < cs) :
    (cs < (CONSTANTS status).ASSET_PART_PENSION_CUTOFF →
      ap_by_asset (CONSTANTS status) cs =
        max 0 ((CONSTANTS status).MAX_ANNUAL_AGE_PENSION -
          0.0078 * (cs - (CONSTANTS status).ASSET_FULL_PENSION))) ∧
    ((CONSTANTS status).ASSET_PART_PENSION_CUTOFF ≤ cs →
      ap_by_asset (CONSTANTS status) cs = 0) ∧
    ap_by_asset (CONSTANTS RelStatus.single) (321500 + 10000) = 29874 - 78 := by
  refine ⟨?_, ?_, ?_⟩
  · intro h2
    rw [ap_by_asset, if_neg (not_le.mpr h1), if_pos h2]
    congr 1
    ring
  · intro h2
    rw [ap_by_asset, if_neg (not_le.mpr h1), if_neg (not_lt.mpr h2)]
  · have : (321500 + 10000 : ℚ) = 331500 := by norm_num
    rw [this, ap_by_asset, if_neg (by norm_num [CONSTANTS]), if_pos (by norm_num [CONSTANTS])]
    rw [max_eq_right (by norm_num [CONSTANTS] : (0:ℚ) ≤ _)]
    norm_num [CONSTANTS]

theorem C2_assets_taper_witness :
    (CONSTANTS RelStatus.single).ASSET_FULL_PENSION < 331500 ∧
    331500 < (CONSTANTS RelStatus.single).ASSET_PART_PENSION_CUTOFF ∧
    ap_by_asset (CONSTANTS RelStatus.single) 331500 =
      max 0 ((CONSTANTS RelStatus.single).MAX_ANNUAL_AGE_PENSION -
        0.0078 * (331500 - (CONSTANTS RelStatus.single).ASSET_FULL_PENSION)) :=
  ⟨by norm_num [CONSTANTS], by norm_num [CONSTANTS],
    (C2_assets_taper RelStatus.single 331500 (by norm_num [CONSTANTS])).1
      (by norm_num [CONSTANTS])⟩


/-! ## C4: the income test and its cutoff -/

/-- C4: in the pension step (age ≥ 67) the entitlement is the floored minimum
of the two tests; the income-test entitlement is the full pension at or below
`INCOME_FULL_PENSION` deemed income, and the floored linear taper above it;
the per-status cutoff satisfies
`INCOME_PART_PENSION_CUTOFF = INCOME_FULL_PENSION + MAX_ANNUAL_AGE_PENSION / AP_INCOME_REDUCTION_RATE`
(65416 single, 99954.40 couple), so the explicit zero branch at or beyond the
cutoff agrees with the floored formula. -/
theorem C4_income_test (status : RelStatus) (age : ℕ) (cs d : ℚ) (hage : 67 ≤ age) :
    annual_age_pension status age cs =
      max 0 (min (ap_by_income (CONSTANTS status) (deemed_income (CONSTANTS status) cs))
        (ap_by_asset (CONSTANTS status) cs)) ∧
    (d ≤ (CONSTANTS status).INCOME_FULL_PENSION →
      ap_by_income (CONSTANTS status) d = (CONSTANTS status).MAX_ANNUAL_AGE_PENSION) ∧
    ((CONSTANTS status).INCOME_FULL_PENSION < d →
      ap_by_income (CONSTANTS status) d =
        max 0 ((CONSTANTS status).MAX_ANNUAL_AGE_PENSION -
          (d - (CONSTANTS status).INCOME_FULL_PENSION) *
            (CONSTANTS status).AP_INCOME_REDUCTION_RATE)) ∧
    (CONSTANTS status).INCOME_PART_PENSION_CUTOFF =
      (CONSTANTS status).INCOME_FULL_PENSION +
        (CONSTANTS status).MAX_ANNUAL_AGE_PENSION /
          (CONSTANTS status).AP_INCOME_REDUCTION_RATE ∧
    ((CONSTANTS status).INCOME_PART_PENSION_CUTOFF ≤ d →
      ap_by_income (CONSTANTS status) d = 0) := by
  have hcut : (CONSTANTS status).INCOME_PART_PENSION_CUTOFF =
      (CONSTANTS status).INCOME_FULL_PENSION +
        (CONSTANTS status).MAX_ANNUAL_AGE_PENSION /
          (CONSTANTS status).AP_INCOME_REDUCTION_RATE := by
    cases status <;> norm_num [CONSTANTS]
  refine ⟨?_, ?_, ?_, hcut, ?_⟩
  · simp [annual_age_pension, AGE_PENSION_ELIGIBILITY_AGE, hage]
  · intro h
    rw [ap_by_income, if_pos h]
  · intro h
    by_cases h2 : d < (CONSTANTS status).INCOME_PART_PENSION_CUTOFF
    · rw [ap_by_income, if_neg (not_le.mpr h), if_pos h2]
    · rw [ap_by_income, if_neg (not_le.mpr h), if_neg h2]
      have h3 := not_lt.mp h2
      symm
      apply max_eq_left
      cases status <;> (norm_num [CONSTANTS] at h3 ⊢; linarith)
  · intro h
    have hlt : (CONSTANTS status).INCOME_FULL_PENSION <
        (CONSTANTS status).INCOME_PART_PENSION_CUTOFF := by
      cases status <;> norm_num [CONSTANTS]
    rw [ap_by_income, if_neg (by linarith), if_neg (not_lt.mpr h)]

theorem C4_income_test_witness :
    67 ≤ 67 ∧
    (CONSTANTS RelStatus.single).INCOME_PART_PENSION_CUTOFF =
      (CONSTANTS RelStatus.single).INCOME_FULL_PENSION +
        (CONSTANTS RelStatus.single).MAX_ANNUAL_AGE_PENSION /
          (CONSTANTS RelStatus.single).AP_INCOME_REDUCTION_RATE :=
  ⟨by omega, (C4_income_test RelStatus.single 67 0 0 (by omega)).2.2.2.1⟩


/-! ## C7: the SAPTO offset -/

/-- C7: the SAPTO offset is applied only at age ≥ 67; when it applies and the
taxable income is at or below the effective threshold the offset equals the
whole gross tax so the net-of-offset tax is 0; above the threshold the offset
is the phased-out amount floored at 0 and capped at gross tax; and
`calculate_tax(30000, 70, false)` for a single is 0. -/
theorem C7_sapto (status : RelStatus) (ti : ℚ) (age : ℕ) :
    (age < 67 → sapto_offset (CONSTANTS status) ti age = 0) ∧
    (67 ≤ age → ti ≤ (CONSTANTS status).SAPTO_EFFECTIVE_TAX_FREE_THRESHOLD →
      sapto_offset (CONSTANTS status) ti age = gross_tax ti ∧
      max 0 (gross_tax ti - sapto_offset (CONSTANTS status) ti age) = 0) ∧
    (67 ≤ age → (CONSTANTS status).SAPTO_EFFECTIVE_TAX_FREE_THRESHOLD < ti →
      sapto_offset (CONSTANTS status) ti age =
        min (max 0 ((CONSTANTS status).SAPTO_MAX -
          (ti - (CONSTANTS status).SAPTO_EFFECTIVE_TAX_FREE_THRESHOLD) *
            (CONSTANTS status).SAPTO_PHASE_OUT_RATE)) (gross_tax ti)) ∧
    calculate_tax RelStatus.single 30000 70 false = 0 := by
  refine ⟨?_, ?_, ?_, ?_⟩
  · intro h
    rw [sapto_offset, if_neg]
    simpa [AGE_PENSION_ELIGIBILITY_AGE] using h
  · intro h1 h2
    rw [sapto_offset, if_pos (by simpa [AGE_PENSION_ELIGIBILITY_AGE] using h1), if_pos h2]
    simp
  · intro h1 h2
    rw [sapto_offset, if_pos (by simpa [AGE_PENSION_ELIGIBILITY_AGE] using h1),
      if_neg (not_le.mpr h2)]
  · norm_num [calculate_tax, gross_tax, sapto_offset, medicare_levy, CONSTANTS,
      AGE_PENSION_ELIGIBILITY_AGE]

theorem C7_sapto_witness :
    67 ≤ 70 ∧ (30000 : ℚ) ≤ (CONSTANTS RelStatus.single).SAPTO_EFFECTIVE_TAX_FREE_THRESHOLD ∧
    sapto_offset (CONSTANTS RelStatus.single) 30000 70 = gross_tax 30000 :=
  ⟨by omega, by norm_num [CONSTANTS],
    ((C7_sapto RelStatus.single 30000 70).2.1 (by omega) (by norm_num [CONSTANTS])).1⟩


/-! ## C6: the Medicare levy and the couple tax split -/

/-- C6: the Medicare-levy component of `calculate_tax` is the levy rate times
the entire taxable income exactly when the income exceeds the applicable
senior threshold (the per-status threshold for a non-split call; the couple
threshold divided by 2 for a household-split call) and 0 otherwise; and in
the projection step a couple household's tax is
`2 × calculate_tax(agePension / 2, age, split)` while a single's tax is
`calculate_tax(agePension, age)`, not doubled. -/
theorem C6_medicare_and_tax_split (status : RelStatus) (ti rate target : ℚ) (age : ℕ)
    (cs : ℚ) :
    medicare_levy status ti false =
      (if (CONSTANTS status).MEDICARE_LEVY_THRESHOLD_SENIOR < ti then
        (CONSTANTS status).MEDICARE_LEVY_RATE * ti else 0) ∧
    medicare_levy RelStatus.couple ti true =
      (if (CONSTANTS RelStatus.couple).MEDICARE_LEVY_THRESHOLD_SENIOR / 2 < ti then
        (CONSTANTS RelStatus.couple).MEDICARE_LEVY_RATE * ti else 0) ∧
    (yearResult RelStatus.couple rate target age cs).taxPayment =
      2 * calculate_tax RelStatus.couple
        ((yearResult RelStatus.couple rate target age cs).agePension / 2) age true ∧
    (yearResult RelStatus.single rate target age cs).taxPayment =
      calculate_tax RelStatus.single
        (yearResult RelStatus.single rate target age cs).agePension age false := by
  refine ⟨?_, ?_, ?_, ?_⟩
  · rw [medicare_levy]
    simp only [Bool.false_eq_true, if_false]
    split_ifs <;> ring
  · simp only [medicare_levy, if_true]
    rw [if_neg (by decide : ¬(RelStatus.couple = RelStatus.single))]
    split_ifs <;> ring
  · simp [yearResult]
    ring
  · simp [yearResult]

/-! ## Invariants of the projection loop -/

/-- Combined per-year facts used by the loop induction: for a non-negative
carried balance the withdrawal lies in `[0, balance]` and the end balance is
the post-withdrawal balance grown by `1 + rate`, hence non-negative for a
non-negative rate. -/
theorem yearResult_props (status : RelStatus) (rate target : ℚ) (age : ℕ) (cs : ℚ)
    (h0 : 0 ≤ cs) (hr : 0 ≤ rate) :
    0 ≤ (yearResult status rate target age cs).startSuper ∧
    0 ≤ (yearResult status rate target age cs).superWithdrawal ∧
    (yearResult status rate target age cs).superWithdrawal ≤
      (yearResult status rate target age cs).startSuper ∧
    (yearResult status rate target age cs).endSuper =
      ((yearResult status rate target age cs).startSuper -
        (yearResult status rate target age cs).superWithdrawal) * (1 + rate) ∧
    0 ≤ (yearResult status rate target age cs).endSuper := by
  rw [yearResult_startSuper]
  exact ⟨h0, yearResult_withdrawal_nonneg _ _ _ _ _, yearResult_withdrawal_le _ _ _ _ _ h0,
    yearResult_endSuper_eq _ _ _ _ _, yearResult_endSuper_nonneg _ _ _ _ _ h0 hr⟩

/-- Loop invariant: starting from a non-negative balance, every emitted row
has a non-negative start balance, a withdrawal within `[0, startSuper]`, and
`endSuper = (startSuper - superWithdrawal) * (1 + rate) ≥ 0`. -/
theorem projectLoop_inv (status : RelStatus) (rate target : ℚ) (end_age : ℕ) (hr : 0 ≤ rate) :
    ∀ fuel age cs, 0 ≤ cs →
      ∀ r ∈ projectLoop status rate target end_age fuel age cs,
        0 ≤ r.startSuper ∧ 0 ≤ r.superWithdrawal ∧ r.superWithdrawal ≤ r.startSuper ∧
          r.endSuper = (r.startSuper - r.superWithdrawal) * (1 + rate) ∧ 0 ≤ r.endSuper := by
  intro fuel
  induction fuel with
  | zero =>
    intro age cs h0 r hm
    simp [projectLoop] at hm
  | succ n ih =>
    intro age cs h0 r hm
    simp only [projectLoop] at hm
    by_cases h1 : (yearResult status rate target age cs).endSuper ≤ 0 ∧ age < end_age
    · rw [if_pos h1] at hm
      by_cases h2 : (yearResult status rate target age cs).agePension = 0 ∧
          (yearResult status rate target age cs).totalAfterTax < target
      · rw [if_pos h2] at hm
        rw [List.mem_singleton] at hm
        subst hm
        exact yearResult_props status rate target age cs h0 hr
      · rw [if_neg h2] at hm
        rcases List.mem_cons.mp hm with rfl | hm
        · exact yearResult_props status rate target age cs h0 hr
        · exact ih (age + 1) 0 le_rfl r hm
    · rw [if_neg h1] at hm
      rcases List.mem_cons.mp hm with rfl | hm
      · exact yearResult_props status rate target age cs h0 hr
      · exact ih (age + 1) (yearResult status rate target age cs).endSuper
          (yearResult_endSuper_nonneg _ _ _ _ _ h0 hr) r hm

/-- The first row emitted by the loop (if any) starts at the carried
balance. -/
theorem projectLoop_head_startSuper (status : RelStatus) (rate target : ℚ) (end_age : ℕ) :
    ∀ fuel age cs r,
      (projectLoop status rate target end_age fuel age cs).head? = some r →
        r.startSuper = cs := by
  intro fuel age cs r h
  cases fuel with
  | zero => simp [projectLoop] at h
  | succ n =>
    simp only [projectLoop] at h
    by_cases h1 : (yearResult status rate target age cs).endSuper ≤ 0 ∧ age < end_age
    · rw [if_pos h1] at h
      by_cases h2 : (yearResult status rate target age cs).agePension = 0 ∧
          (yearResult status rate target age cs).totalAfterTax < target
      · rw [if_pos h2] at h
        simp at h
        subst h
        exact yearResult_startSuper _ _ _ _ _
      · rw [if_neg h2] at h
        simp at h
        subst h
        exact yearResult_startSuper _ _ _ _ _
    · rw [if_neg h1] at h
      simp at h
      subst h
      exact yearResult_startSuper _ _ _ _ _

/-- Consecutive emitted rows chain: each row's `startSuper` is the previous
row's `endSuper` (the clamp-to-0 step coincides with `endSuper` because the
invariant forces `endSuper = 0` whenever the clamp fires). -/
theorem projectLoop_chain (status : RelStatus) (rate target : ℚ) (end_age : ℕ)
    (hr : 0 ≤ rate) :
    ∀ fuel age cs, 0 ≤ cs →
      List.Chain' (fun a b => b.startSuper = a.endSuper)
        (projectLoop status rate target end_age fuel age cs) := by
  intro fuel
  induction fuel with
  | zero =>
    intro age cs h0
    simp [projectLoop]
  | succ n ih =>
    intro age cs h0
    simp only [projectLoop]
    by_cases h1 : (yearResult status rate target age cs).endSuper ≤ 0 ∧ age < end_age
    · rw [if_pos h1]
      by_cases h2 : (yearResult status rate target age cs).agePension = 0 ∧
          (yearResult status rate target age cs).totalAfterTax < target
      · rw [if_pos h2]
        simp
      · rw [if_neg h2]
        rw [List.chain'_cons']
        constructor
        · intro b hb
          have hb' : (projectLoop status rate target end_age n (age + 1) 0).head? = some b :=
            hb
          rw [projectLoop_head_startSuper status rate target end_age n (age + 1) 0 b hb']
          have hnn := yearResult_endSuper_nonneg status rate target age cs h0 hr
          linarith [h1.1]
        · exact ih (age + 1) 0 le_rfl
    · rw [if_neg h1]
      rw [List.chain'_cons']
      constructor
      · intro b hb
        have hb' : (projectLoop status rate target end_age n (age + 1)
            (yearResult status rate target age cs).endSuper).head? = some b := hb
        exact projectLoop_head_startSuper status rate target end_age n (age + 1) _ b hb'
      · exact ih (age + 1) (yearResult status rate target age cs).endSuper
          (yearResult_endSuper_nonneg _ _ _ _ _ h0 hr)

/-- The emitted ages are consecutive, starting at the loop's first age. -/
theorem projectLoop_ages (status : RelStatus) (rate target : ℚ) (end_age : ℕ) :
    ∀ fuel age cs,
      (projectLoop status rate target end_age fuel age cs).map (fun r => r.age) =
        List.range' age (projectLoop status rate target end_age fuel age cs).length := by
  intro fuel
  induction fuel with
  | zero =>
    intro age cs
    simp [projectLoop]
  | succ n ih =>
    intro age cs
    simp only [projectLoop]
    by_cases h1 : (yearResult status rate target age cs).endSuper ≤ 0 ∧ age < end_age
    · rw [if_pos h1]
      by_cases h2 : (yearResult status rate target age cs).agePension = 0 ∧
          (yearResult status rate target age cs).totalAfterTax < target
      · rw [if_pos h2]
        simp [yearResult_age, List.range'_one]
      · rw [if_neg h2]
        simp only [List.map_cons, List.length_cons, yearResult_age, List.range'_succ]
        rw [ih (age + 1) 0]
    · rw [if_neg h1]
      simp only [List.map_cons, List.length_cons, yearResult_age, List.range'_succ]
      rw [ih (age + 1) (yearResult status rate target age cs).endSuper]

/-- The loop emits at most `fuel` rows. -/
theorem projectLoop_length_le (status : RelStatus) (rate target : ℚ) (end_age : ℕ) :
    ∀ fuel age cs, (projectLoop status rate target end_age fuel age cs).length ≤ fuel := by
  intro fuel
  induction fuel with
  | zero =>
    intro age cs
    simp [projectLoop]
  | succ n ih =>
    intro age cs
    simp only [projectLoop]
    by_cases h1 : (yearResult status rate target age cs).endSuper ≤ 0 ∧ age < end_age
    · rw [if_pos h1]
      by_cases h2 : (yearResult status rate target age cs).agePension = 0 ∧
          (yearResult status rate target age cs).totalAfterTax < target
      · rw [if_pos h2]
        simp
      · rw [if_neg h2]
        simpa using ih (age + 1) 0
    · rw [if_neg h1]
      simpa using ih (age + 1) (yearResult status rate target age cs).endSuper

/-- The loop emits no rows exactly when the fuel is zero. -/
theorem projectLoop_eq_nil_iff (status : RelStatus) (rate target : ℚ) (end_age : ℕ)
    (fuel age : ℕ) (cs : ℚ) :
    projectLoop status rate target end_age fuel age cs = [] ↔ fuel = 0 := by
  cases fuel with
  | zero => simp [projectLoop]
  | succ n =>
    simp only [projectLoop]
    constructor
    · intro h
      by_cases h1 : (yearResult status rate target age cs).endSuper ≤ 0 ∧ age < end_age
      · rw [if_pos h1] at h
        by_cases h2 : (yearResult status rate target age cs).agePension = 0 ∧
            (yearResult status rate target age cs).totalAfterTax < target
        · rw [if_pos h2] at h
          simp at h
        · rw [if_neg h2] at h
          simp at h
      · rw [if_neg h1] at h
        simp at h
    · intro h
      exact absurd h (Nat.succ_ne_zero n)

/-- With the fuel/age bookkeeping of the top-level call, the loop emits
exactly `fuel` rows iff no emitted row triggers the early-termination break
(age below `end_age`, depleted balance, zero pension, target missed). -/
theorem projectLoop_length_eq_iff (status : RelStatus) (rate target : ℚ) (end_age : ℕ) :
    ∀ fuel age cs, age + fuel = end_age + 1 →
      ((projectLoop status rate target end_age fuel age cs).length = fuel ↔
        ∀ r ∈ projectLoop status rate target end_age fuel age cs,
          ¬(r.age < end_age ∧ r.endSuper ≤ 0 ∧ r.agePension = 0 ∧
            r.totalAfterTax < target)) := by
  intro fuel
  induction fuel with
  | zero =>
    intro age cs hfa
    simp [projectLoop]
  | succ n ih =>
    intro age cs hfa
    simp only [projectLoop]
    by_cases h1 : (yearResult status rate target age cs).endSuper ≤ 0 ∧ age < end_age
    · by_cases h2 : (yearResult status rate target age cs).agePension = 0 ∧
          (yearResult status rate target age cs).totalAfterTax < target
      · rw [if_pos h1, if_pos h2]
        have hn : 1 ≤ n := by omega
        apply iff_of_false
        · simp
          omega
        · intro hall
          exact hall (yearResult status rate target age cs) (List.mem_singleton_self _)
            ⟨by rw [yearResult_age]; exact h1.2, h1.1, h2.1, h2.2⟩
      · rw [if_pos h1, if_neg h2]
        have hY : ¬((yearResult status rate target age cs).age < end_age ∧
            (yearResult status rate target age cs).endSuper ≤ 0 ∧
            (yearResult status rate target age cs).agePension = 0 ∧
            (yearResult status rate target age cs).totalAfterTax < target) := by
          intro hc
          exact h2 ⟨hc.2.2.1, hc.2.2.2⟩
        rw [List.length_cons, Nat.succ_inj]
        rw [ih (age + 1) 0 (by omega)]
        constructor
        · intro hall r hm
          rcases List.mem_cons.mp hm with rfl | hm
          · exact hY
          · exact hall r hm
        · intro hall r hm
          exact hall r (List.mem_cons_of_mem _ hm)
    · rw [if_neg h1]
      have hY : ¬((yearResult status rate target age cs).age < end_age ∧
          (yearResult status rate target age cs).endSuper ≤ 0 ∧
          (yearResult status rate target age cs).agePension = 0 ∧
          (yearResult status rate target age cs).totalAfterTax < target) := by
        intro hc
        rw [yearResult_age] at hc
        exact h1 ⟨hc.2.1, hc.1⟩
      rw [List.length_cons, Nat.succ_inj]
      rw [ih (age + 1) (yearResult status rate target age cs).endSuper (by omega)]
      constructor
      · intro hall r hm
        rcases List.mem_cons.mp hm with rfl | hm
        · exact hY
        · exact hall r hm
      · intro hall r hm
        exact hall r (List.mem_cons_of_mem _ hm)

/-- The balance of one simulated year at a zero balance before age 67 with a
positive target: no pension, zero after-tax income, zero end balance. -/
theorem yearResult_zero_pre67 (status : RelStatus) (rate target : ℚ) (age : ℕ)
    (hage : age < 67) (ht : 0 < target) :
    (yearResult status rate target age 0).agePension = 0 ∧
    (yearResult status rate target age 0).totalAfterTax = 0 ∧
    (yearResult status rate target age 0).endSuper = 0 := by
  have hp : annual_age_pension status age 0 = 0 := by
    rw [annual_age_pension, if_neg]
    simpa [AGE_PENSION_ELIGIBILITY_AGE] using hage
  have htax : ∀ b : Bool, calculate_tax status 0 age b = 0 := by
    intro b
    rw [calculate_tax]
    have hg : gross_tax 0 = 0 := by norm_num [gross_tax]
    have hs : sapto_offset (CONSTANTS status) 0 age = 0 := by
      rw [sapto_offset]
      split
      · rw [if_pos (by cases status <;> norm_num [CONSTANTS])]
        exact hg
      · rfl
    have hm : medicare_levy status 0 b = 0 := by
      rw [medicare_levy]
      cases b
      · simp only [Bool.false_eq_true, if_false]
        rw [if_neg]
        cases status <;> norm_num [CONSTANTS]
      · simp only [if_true]
        rw [if_neg]
        cases status
        · rw [if_pos rfl]
          norm_num [CONSTANTS]
        · rw [if_neg (by decide : ¬(RelStatus.couple = RelStatus.single))]
          norm_num [CONSTANTS]
    rw [hg, hs, hm]
    norm_num
  have hw2 : min target (0 : ℚ) = 0 := min_eq_right ht.le
  have hw1 : max (0 : ℚ) target = target := max_eq_right ht.le
  simp only [yearResult, hp, htax, zero_div, zero_mul, mul_zero, sub_zero, zero_sub,
    zero_add, add_zero, neg_zero, hw1, hw2, if_neg (not_le.mpr ht), min_self, max_self]
  norm_num

/-! ## C1, C10, C5, C3: properties of `project_retirement_income` -/

/-- C1: for `startSuper ≥ 0` and `superReturnRate ≥ 0`, every emitted
`YearResult` satisfies
`endSuper = (startSuper − superWithdrawal) × (1 + superReturnRate)` exactly
on the unrounded values, and whenever year `i+1` is emitted its `startSuper`
equals year `i`'s `endSuper`. -/
theorem C1_balance_rollforward (ss : ℚ) (sa ea : ℕ) (rate target : ℚ) (status : RelStatus)
    (h0 : 0 ≤ ss) (hr : 0 ≤ rate) :
    (∀ r ∈ project_retirement_income ss sa ea rate target status,
      r.endSuper = (r.startSuper - r.superWithdrawal) * (1 + rate)) ∧
    List.Chain' (fun a b => b.startSuper = a.endSuper)
      (project_retirement_income ss sa ea rate target status) := by
  constructor
  · intro r hm
    exact (projectLoop_inv status rate target ea hr _ sa ss h0 r hm).2.2.2.1
  · exact projectLoop_chain status rate target ea hr _ sa ss h0

theorem C1_balance_rollforward_witness :
    (0 : ℚ) ≤ 500000 ∧ (0 : ℚ) ≤ 0.05 ∧
    ((∀ r ∈ project_retirement_income 500000 66 68 0.05 40000 RelStatus.single,
        r.endSuper = (r.startSuper - r.superWithdrawal) * (1 + 0.05)) ∧
      List.Chain' (fun a b => b.startSuper = a.endSuper)
        (project_retirement_income 500000 66 68 0.05 40000 RelStatus.single)) :=
  ⟨by norm_num, by norm_num,
    C1_balance_rollforward 500000 66 68 0.05 40000 RelStatus.single (by norm_num)
      (by norm_num)⟩

/-- C10: for `startSuper ≥ 0` and `superReturnRate ≥ 0`, every emitted
`YearResult` has `0 ≤ superWithdrawal ≤ startSuper` and `endSuper ≥ 0`: the
engine never withdraws more than the available balance and the balance
carried into each year is never negative. -/
theorem C10_withdrawal_bounds (ss : ℚ) (sa ea : ℕ) (rate target : ℚ) (status : RelStatus)
    (h0 : 0 ≤ ss) (hr : 0 ≤ rate) :
    ∀ r ∈ project_retirement_income ss sa ea rate target status,
      0 ≤ r.startSuper ∧ 0 ≤ r.superWithdrawal ∧ r.superWithdrawal ≤ r.startSuper ∧
        0 ≤ r.endSuper := by
  intro r hm
  have h := projectLoop_inv status rate target ea hr _ sa ss h0 r hm
  exact ⟨h.1, h.2.1, h.2.2.1, h.2.2.2.2⟩

theorem C10_withdrawal_bounds_witness :
    (0 : ℚ) ≤ 300000 ∧ (0 : ℚ) ≤ 0.03 ∧
    (∀ r ∈ project_retirement_income 300000 67 69 0.03 30000 RelStatus.couple,
      0 ≤ r.startSuper ∧ 0 ≤ r.superWithdrawal ∧ r.superWithdrawal ≤ r.startSuper ∧
        0 ≤ r.endSuper) :=
  ⟨by norm_num, by norm_num,
    C10_withdrawal_bounds 300000 67 69 0.03 30000 RelStatus.couple (by norm_num)
      (by norm_num)⟩

/-- C5: the projection returns one `YearResult` per simulated age, for
consecutive ages starting at `startAge`; its length is at most
`endAge − startAge + 1`, with equality (when `startAge ≤ endAge`) exactly
when no early termination occurs; and the list is empty iff
`startAge > endAge`. -/
theorem C5_projection_shape (ss : ℚ) (sa ea : ℕ) (rate target : ℚ) (status : RelStatus) :
    (project_retirement_income ss sa ea rate target status).map (fun r => r.age) =
      List.range' sa (project_retirement_income ss sa ea rate target status).length ∧
    (project_retirement_income ss sa ea rate target status).length ≤ ea + 1 - sa ∧
    (sa ≤ ea →
      ((project_retirement_income ss sa ea rate target status).length = ea + 1 - sa ↔
        ∀ r ∈ project_retirement_income ss sa ea rate target status,
          ¬(r.age < ea ∧ r.endSuper ≤ 0 ∧ r.agePension = 0 ∧ r.totalAfterTax < target))) ∧
    (project_retirement_income ss sa ea rate target status = [] ↔ ea < sa) := by
  refine ⟨projectLoop_ages status rate target ea _ sa ss,
    projectLoop_length_le status rate target ea _ sa ss, ?_, ?_⟩
  · intro h
    exact projectLoop_length_eq_iff status rate target ea _ sa ss (by omega)
  · rw [project_retirement_income, projectLoop_eq_nil_iff]
    omega

theorem C5_projection_shape_witness :
    60 ≤ 61 ∧
    ((project_retirement_income 0 60 61 0 1000 RelStatus.single).length = 61 + 1 - 60 ↔
      ∀ r ∈ project_retirement_income 0 60 61 0 1000 RelStatus.single,
        ¬(r.age < 61 ∧ r.endSuper ≤ 0 ∧ r.agePension = 0 ∧ r.totalAfterTax < 1000)) :=
  ⟨by omega, (C5_projection_shape 0 60 61 0 1000 RelStatus.single).2.2.1 (by omega)⟩

/-- C3: after emitting the row for an age strictly below `endAge` whose
`endSuper ≤ 0`, the carried balance is clamped to 0 and the loop stops
immediately iff that row's `agePension = 0` and its
`totalAfterTax < target`; in particular with `startSuper = 0`,
`target > 0` and `startAge < 67 ≤ endAge`, exactly one `YearResult` is
emitted. -/
theorem C3_early_termination (status : RelStatus) (rate target : ℚ)
    (end_age fuel age : ℕ) (cs : ℚ) (sa ea : ℕ)
    (hlt : age < end_age)
    (hneg : (yearResult status rate target age cs).endSuper ≤ 0) :
    projectLoop status rate target end_age (fuel + 1) age cs =
      (if (yearResult status rate target age cs).agePension = 0 ∧
          (yearResult status rate target age cs).totalAfterTax < target
        then [yearResult status rate target age cs]
        else yearResult status rate target age cs ::
          projectLoop status rate target end_age fuel (age + 1) 0) ∧
    (sa < 67 → 67 ≤ ea → 0 < target →
      (project_retirement_income 0 sa ea rate target status).length = 1) := by
  constructor
  · simp only [projectLoop]
    rw [if_pos ⟨hneg, hlt⟩]
  · intro h1 h2 h3
    have hsaea : sa < ea := by omega
    rw [project_retirement_income]
    have hf : ea + 1 - sa = (ea - sa) + 1 := by omega
    rw [hf]
    simp only [projectLoop]
    obtain ⟨hp, hta, hes⟩ := yearResult_zero_pre67 status rate target sa h1 h3
    rw [if_pos ⟨le_of_eq hes, hsaea⟩, if_pos ⟨hp, by rw [hta]; exact h3⟩]
    rfl

theorem C3_early_termination_witness :
    60 < 70 ∧ (yearResult RelStatus.single 0.05 50000 60 0).endSuper ≤ 0 ∧
    (project_retirement_income 0 60 70 0.05 50000 RelStatus.single).length = 1 :=
  ⟨by omega,
    le_of_eq (yearResult_zero_pre67 RelStatus.single 0.05 50000 60 (by omega)
      (by norm_num)).2.2,
    (C3_early_termination RelStatus.single 0.05 50000 70 3 60 0 60 70 (by omega)
      (le_of_eq (yearResult_zero_pre67 RelStatus.single 0.05 50000 60 (by omega)
        (by norm_num)).2.2)).2 (by omega) (by omega) (by norm_num)⟩

/-! ## C9: the years-to-target calculator -/

/-- Bounds on the `while` loop of `years_to_reach_target_super`: the year
counter never decreases, rises by at most the fuel, the loop ends either by
exhausting the fuel or with the balance at or above the target, and a
strictly-below-target balance with positive fuel forces at least one
iteration. -/
theorem yrtLoop_bounds (c r t : ℚ) :
    ∀ fuel years age b,
      years ≤ (yrtLoop c r t fuel years age b).1 ∧
      (yrtLoop c r t fuel years age b).1 ≤ years + fuel ∧
      ((yrtLoop c r t fuel years age b).1 = years + fuel ∨
        t ≤ (yrtLoop c r t fuel years age b).2.2) ∧
      (b < t → 0 < fuel → years < (yrtLoop c r t fuel years age b).1) := by
  intro fuel
  induction fuel with
  | zero =>
    intro years age b
    refine ⟨le_rfl, by simp [yrtLoop], Or.inl (by simp [yrtLoop]), ?_⟩
    intro _ h
    exact absurd h (lt_irrefl 0)
  | succ n ih =>
    intro years age b
    simp only [yrtLoop]
    by_cases hb : b < t
    · rw [if_pos hb]
      obtain ⟨ih1, ih2, ih3, _⟩ := ih (years + 1) (age + 1) ((b + c) * (1 + r))
      refine ⟨by omega, by omega, ?_, fun _ _ => by omega⟩
      rcases ih3 with h | h
      · exact Or.inl (by omega)
      · exact Or.inr h
    · rw [if_neg hb]
      exact ⟨le_rfl, by omega, Or.inr (not_lt.mp hb), fun hb' _ => absurd hb' hb⟩

/-- C9: `years_to_reach_target_super` returns `(0, startAge, balance)` iff
`target ≤ balance`; it returns the unreachable sentinel (`years = ∞`,
`age = ∞`, modelled as `none`) iff either the target is above the balance
with `contribution ≤ 0` and `returnRate ≤ 0` (balance returned unchanged) or
the 100-iteration cap is reached with the balance still below the target
(the balance reached at the cap is returned); in every remaining case it
returns a finite year count in `[1, 100]` with a final balance at or above
the target. (The function is total, so it cannot throw.) -/
theorem C9_target_years (sa : ℕ) (cb tb c r : ℚ) :
    (years_to_reach_target_super sa cb tb c r = (some 0, some sa, cb) ↔ tb ≤ cb) ∧
    ((years_to_reach_target_super sa cb tb c r).1 = none ↔
      (¬tb ≤ cb ∧ ((c ≤ 0 ∧ r ≤ 0) ∨
        ((yrtLoop c r tb 100 0 sa cb).1 = 100 ∧
          (yrtLoop c r tb 100 0 sa cb).2.2 < tb)))) ∧
    (¬tb ≤ cb → c ≤ 0 ∧ r ≤ 0 →
      years_to_reach_target_super sa cb tb c r = (none, none, cb)) ∧
    (¬tb ≤ cb → ¬(c ≤ 0 ∧ r ≤ 0) →
      (yrtLoop c r tb 100 0 sa cb).1 = 100 → (yrtLoop c r tb 100 0 sa cb).2.2 < tb →
      years_to_reach_target_super sa cb tb c r =
        (none, none, (yrtLoop c r tb 100 0 sa cb).2.2)) ∧
    (¬tb ≤ cb → (years_to_reach_target_super sa cb tb c r).1 ≠ none →
      ∃ y a b, years_to_reach_target_super sa cb tb c r = (some y, some a, b) ∧
        1 ≤ y ∧ y ≤ 100 ∧ tb ≤ b) := by
  by_cases h1 : tb ≤ cb
  · rw [years_to_reach_target_super, if_pos h1]
    refine ⟨iff_of_true rfl h1, ?_, ?_, ?_, ?_⟩
    · apply iff_of_false
      · simp
      · intro h
        exact h.1 h1
    · intro h
      exact absurd h1 h
    · intro h
      exact absurd h1 h
    · intro h
      exact absurd h1 h
  · by_cases h2 : c ≤ 0 ∧ r ≤ 0
    · rw [years_to_reach_target_super, if_neg h1, if_pos h2]
      refine ⟨?_, ?_, fun _ _ => rfl, ?_, ?_⟩
      · apply iff_of_false
        · intro h
          simp at h
        · exact h1
      · simp [h1, h2]
      · intro _ hn2 _ _
        exact absurd h2 hn2
      · intro _ hne
        exact absurd rfl hne
    · rw [years_to_reach_target_super, if_neg h1, if_neg h2]
      obtain ⟨hl1, hl2, hl3, hl4⟩ := yrtLoop_bounds c r tb 100 0 sa cb
      have hpos : 0 < (yrtLoop c r tb 100 0 sa cb).1 :=
        hl4 (not_le.mp h1) (by omega)
      by_cases h3 : (yrtLoop c r tb 100 0 sa cb).1 = 100 ∧
          (yrtLoop c r tb 100 0 sa cb).2.2 < tb
      · rw [if_pos h3]
        refine ⟨?_, ?_, ?_, fun _ _ _ _ => rfl, ?_⟩
        · apply iff_of_false
          · intro h
            simp at h
          · exact h1
        · simp [h1, h3]
        · intro _ hc
          exact absurd hc h2
        · intro _ hne
          exact absurd rfl hne
      · rw [if_neg h3]
        refine ⟨?_, ?_, ?_, ?_, ?_⟩
        · apply iff_of_false
          · intro h
            rw [Prod.mk.injEq, Prod.mk.injEq] at h
            have := Option.some.inj h.1
            omega
          · exact h1
        · apply iff_of_false
          · simp
          · intro hc
            rcases hc.2 with hcc | hcc
            · exact h2 hcc
            · exact h3 hcc
        · intro _ hc
          exact absurd hc h2
        · intro _ _ hc1 hc2
          exact absurd ⟨hc1, hc2⟩ h3
        · intro _ _
          refine ⟨(yrtLoop c r tb 100 0 sa cb).1, (yrtLoop c r tb 100 0 sa cb).2.1,
            (yrtLoop c r tb 100 0 sa cb).2.2, rfl, by omega, by omega, ?_⟩
          rcases hl3 with h | h
          · rw [Nat.zero_add] at h
            rcases not_and_or.mp h3 with hc | hc
            · exact absurd h hc
            · exact not_lt.mp hc
          · exact h

theorem C9_target_years_witness :
    ¬(100 : ℚ) ≤ 0 ∧ (years_to_reach_target_super 30 0 100 100 0).1 ≠ none ∧
    ∃ y a b, years_to_reach_target_super 30 0 100 100 0 = (some y, some a, b) ∧
      1 ≤ y ∧ y ≤ 100 ∧ (100 : ℚ) ≤ b := by
  have hne : (years_to_reach_target_super 30 0 100 100 0).1 ≠ none := by
    have hval : years_to_reach_target_super 30 0 100 100 0 = (some 1, some 31, 100) := by
      rw [years_to_reach_target_super]
      norm_num
      rw [show (100 : ℕ) = 99 + 1 from rfl, yrtLoop]
      norm_num
      rw [show (99 : ℕ) = 98 + 1 from rfl, yrtLoop]
      norm_num
    rw [hval]
    simp
  exact ⟨by norm_num, hne,
    (C9_target_years 30 0 100 100 0).2.2.2.2 (by norm_num) hne⟩
